import Mathlib

/-!
Verification of the DataloaderGuard of the TPU spawn strategy.

The repository under study ships only the test suite of the guard
(tests/plugins/test_tpu_spawn.py) and a demo script; the guard itself
(TPUSpawnPlugin.connect / process_dataloader and the validation helpers it
calls) is part of the library but absent from the provided sources.  The
definitions below are therefore modelled from the specification of the
DataloaderGuard component (data model in spec section 3, operations in
section 4.1), constrained by the behaviour the in-repository tests pin
down (the error is a configuration error whose message matches
"TPUs do not currently support").
-/

namespace DataloaderGuard

/-- Modelled from the spec: a `DataloaderHandle` is an opaque handle wrapping
an underlying data source and exposing the capability query
`has_known_length() -> bool`.  The `payload` field stands for the handle's
identity/contents, which per the spec the guard must not depend on.
The concrete handle class is missing from the provided sources. -/
structure DataloaderHandle where
  has_known_length : Bool
  payload : Nat
deriving DecidableEq, Repr

/-- Modelled from the spec: each of the four roles holds either nothing, a
single dataloader-like handle, or an ordered sequence of handles.  The slot
is parametric in the handle type so that the same shape can carry plain
handles, stateful handles, or bare capability flags. -/
inductive RoleSlot (α : Type) where
  | absent : RoleSlot α
  | single : α → RoleSlot α
  | seq : List α → RoleSlot α
deriving DecidableEq, Repr

/-- Modelled from the spec: the four role slots (train, validation, test,
predict) supplied to the bulk validation entry point. -/
structure DataloaderSpec (α : Type) where
  train : RoleSlot α
  validation : RoleSlot α
  test : RoleSlot α
  predict : RoleSlot α
deriving DecidableEq, Repr

/-- The four roles, in the deterministic order the guard examines them. -/
inductive Role where
  | train : Role
  | validation : Role
  | test : Role
  | predict : Role
deriving DecidableEq, Repr

/-- The handles contributed by one role slot: none when absent, one for a
single handle, each element individually for a sequence. -/
def RoleSlot.handles {α : Type} : RoleSlot α → List α
  | .absent => []
  | .single h => [h]
  | .seq hs => hs

/-- Map a function over every handle of a slot, preserving its shape. -/
def RoleSlot.map {α β : Type} (f : α → β) : RoleSlot α → RoleSlot β
  | .absent => .absent
  | .single h => .single (f h)
  | .seq hs => .seq (hs.map f)

/-- Select the slot of a given role. -/
def DataloaderSpec.getRole {α : Type} (s : DataloaderSpec α) : Role → RoleSlot α
  | .train => s.train
  | .validation => s.validation
  | .test => s.test
  | .predict => s.predict

/-- All handles reachable from the present role slots, in the deterministic
order train, then validation, then test, then predict, left-to-right within
each sequence. -/
def DataloaderSpec.allHandles {α : Type} (s : DataloaderSpec α) : List α :=
  s.train.handles ++ s.validation.handles ++ s.test.handles ++ s.predict.handles

/-- Map a function over every handle of every slot, preserving the shape. -/
def DataloaderSpec.map {α β : Type} (f : α → β) (s : DataloaderSpec α) :
    DataloaderSpec β :=
  ⟨s.train.map f, s.validation.map f, s.test.map f, s.predict.map f⟩

/-- The capability flags of a configuration: same role-slot shape, each
handle replaced by its `has_known_length` flag. -/
def DataloaderSpec.flags (s : DataloaderSpec DataloaderHandle) :
    DataloaderSpec Bool :=
  s.map DataloaderHandle.has_known_length

/-- Modelled from the spec: the single error kind `ConfigurationError`,
carrying a human-readable message.  The concrete exception class
(MisconfigurationException) is missing from the provided sources. -/
structure ConfigurationError where
  message : String
deriving DecidableEq, Repr

/-- Modelled from the spec: the message identifying the unsupported case,
chosen to match both the substring the in-repository tests pin down
("TPUs do not currently support") and the spec's requirement that the
message contain "iterable" and "support" case-insensitively. -/
def errorMessage : String :=
  "TPUs do not currently support IterableDataset objects, the dataset must implement __len__."

/-- Modelled from the spec: `validate_single(handle)` fails with a
`ConfigurationError` exactly when the handle lacks known length, and
returns normally otherwise.  The concrete method
(TPUSpawnPlugin.process_dataloader path) is missing from the provided
sources. -/
def validate_single (h : DataloaderHandle) : Except ConfigurationError Unit :=
  if h.has_known_length then .ok () else .error ⟨errorMessage⟩

/-- Modelled from the spec: left-to-right validation of a list of handles,
stopping at the first offending handle found. -/
def validateList : List DataloaderHandle → Except ConfigurationError Unit
  | [] => .ok ()
  | h :: rest =>
    match validate_single h with
    | .error e => .error e
    | .ok _ => validateList rest

/-- Modelled from the spec: `validate` examines every handle of every
present role slot, in the deterministic order train, validation, test,
predict, left-to-right within a sequence, and fails immediately at the
first handle reporting no known length.  The concrete bulk validation
(TPUSpawnPlugin.connect path) is missing from the provided sources. -/
def validate (s : DataloaderSpec DataloaderHandle) :
    Except ConfigurationError Unit :=
  validateList s.allHandles

/-- Instrumented variant of `validateList` that additionally records, in
order, every handle whose capability flag is actually queried, so that the
stop-at-first-offender behaviour is observable. -/
def validateListInstr :
    List DataloaderHandle → List DataloaderHandle × Except ConfigurationError Unit
  | [] => ([], .ok ())
  | h :: rest =>
    match validate_single h with
    | .error e => ([h], .error e)
    | .ok _ =>
      let r := validateListInstr rest
      (h :: r.1, r.2)

/-- Instrumented variant of `validate`: same outcome, plus the ordered list
of handles examined. -/
def validateInstr (s : DataloaderSpec DataloaderHandle) :
    List DataloaderHandle × Except ConfigurationError Unit :=
  validateListInstr s.allHandles

/-- ASCII lowercasing of a single character, used to state the
case-insensitive substring requirements on the error message. -/
def lowerChar (c : Char) : Char :=
  if c.isUpper then Char.ofNat (c.toNat + 32) else c

/-- ASCII lowercasing of a character list. -/
def lowerList (l : List Char) : List Char := l.map lowerChar

/-- Modelled from the spec: a handle together with the observable state of
its underlying data source.  `position` is the iteration state of the data
source, which per the spec the guard must not consume or advance. -/
structure HandleState where
  has_known_length : Bool
  position : Nat
  payload : Nat
deriving DecidableEq, Repr

/-- Modelled from the spec: probing the length capability reads the flag
without iterating the underlying data source; it returns the resulting
handle state alongside the answer so that any mutation would be visible. -/
def queryKnownLength (h : HandleState) : Bool × HandleState :=
  (h.has_known_length, h)

/-- The pure view of a stateful handle. -/
def HandleState.toHandle (h : HandleState) : DataloaderHandle :=
  ⟨h.has_known_length, h.payload⟩

/-- Modelled from the spec: stateful `validate_single`, threading the handle
state through the capability query. -/
def validate_single_st (h : HandleState) :
    Except ConfigurationError Unit × HandleState :=
  let q := queryKnownLength h
  (if q.1 then .ok () else .error ⟨errorMessage⟩, q.2)

/-- Modelled from the spec: stateful left-to-right validation, threading
every handle state and stopping at the first offender. -/
def validateList_st :
    List HandleState → Except ConfigurationError Unit × List HandleState
  | [] => (.ok (), [])
  | h :: rest =>
    let q := validate_single_st h
    match q.1 with
    | .error e => (.error e, q.2 :: rest)
    | .ok _ =>
      let r := validateList_st rest
      (r.1, q.2 :: r.2)

/-- Modelled from the spec: stateful bulk validation over the four role
slots, returning the outcome and the final states of all handles in
traversal order. -/
def validate_st (s : DataloaderSpec HandleState) :
    Except ConfigurationError Unit × List HandleState :=
  validateList_st s.allHandles

/-- Modelled from the in-repository test (BoringModelNoDataloaders): a
model's dataloader hook either raises NotImplementedError or provides
dataloaders. -/
inductive HookResult where
  | notImplementedError : HookResult
  | dataloaders : RoleSlot DataloaderHandle → HookResult
deriving DecidableEq

/-- Modelled from the in-repository test: a LightningModule exposing the
four dataloader hooks. -/
structure Model where
  train_dataloader : HookResult
  val_dataloader : HookResult
  test_dataloader : HookResult
  predict_dataloader : HookResult
deriving DecidableEq

/-- The model of the test class whose four hooks all raise
NotImplementedError. -/
def boringModelNoDataloaders : Model :=
  ⟨.notImplementedError, .notImplementedError, .notImplementedError,
   .notImplementedError⟩

/-- Modelled from the spec: the data connector holding the dataloaders
attached directly to the trainer by attach_dataloaders. -/
structure DataConnector where
  attached : DataloaderSpec DataloaderHandle
deriving DecidableEq

/-- Modelled from the spec: the bulk attachment point at strategy connect
time supplies the four attached role slots to the guard; per the spec the
guard's decision depends only on those handles, so the model's own hooks
are not consulted.  The concrete method (TPUSpawnPlugin.connect) is missing
from the provided sources. -/
def connect (_model : Model) (c : DataConnector) :
    Except ConfigurationError Unit :=
  validate c.attached

/-! ## Helper lemmas -/

theorem validateList_error_of_mem {d : DataloaderHandle}
    {l : List DataloaderHandle} (hmem : d ∈ l)
    (hbad : d.has_known_length = false) :
    validateList l = .error ⟨errorMessage⟩ := by
  induction l with
  | nil => cases hmem
  | cons h rest ih =>
    cases hk : h.has_known_length with
    | false => simp [validateList, validate_single, hk]
    | true =>
      have hd : d ∈ rest := by
        rcases List.mem_cons.mp hmem with heq | h2
        · subst heq; rw [hk] at hbad; cases hbad
        · exact h2
      simp [validateList, validate_single, hk, ih hd]

theorem validateList_ok_of_all {l : List DataloaderHandle}
    (hall : ∀ d ∈ l, d.has_known_length = true) :
    validateList l = .ok () := by
  induction l with
  | nil => rfl
  | cons h rest ih =>
    have hk := hall h (List.mem_cons_self h rest)
    have hrest := ih fun d hd => hall d (List.mem_cons_of_mem h hd)
    simp [validateList, validate_single, hk, hrest]

theorem RoleSlot.handles_map {α β : Type} (f : α → β) (r : RoleSlot α) :
    (r.map f).handles = r.handles.map f := by
  cases r <;> simp [RoleSlot.map, RoleSlot.handles]

theorem allHandles_map {α β : Type} (f : α → β) (s : DataloaderSpec α) :
    (s.map f).allHandles = s.allHandles.map f := by
  simp [DataloaderSpec.map, DataloaderSpec.allHandles, RoleSlot.handles_map]

theorem validateList_depends_only_on_flags
    {l₁ l₂ : List DataloaderHandle}
    (hf : l₁.map DataloaderHandle.has_known_length
        = l₂.map DataloaderHandle.has_known_length) :
    validateList l₁ = validateList l₂ := by
  induction l₁ generalizing l₂ with
  | nil =>
    cases l₂ with
    | nil => rfl
    | cons h2 rest2 => simp at hf
  | cons h rest ih =>
    cases l₂ with
    | nil => simp at hf
    | cons h2 rest2 =>
      simp only [List.map_cons, List.cons.injEq] at hf
      obtain ⟨h1eq, hrest⟩ := hf
      cases hk : h2.has_known_length with
      | false =>
        rw [hk] at h1eq
        simp [validateList, validate_single, h1eq, hk]
      | true =>
        rw [hk] at h1eq
        simp only [validateList, validate_single, h1eq, hk, if_true]
        exact ih hrest

theorem validateListInstr_snd (l : List DataloaderHandle) :
    (validateListInstr l).2 = validateList l := by
  induction l with
  | nil => rfl
  | cons h rest ih =>
    cases hk : h.has_known_length <;>
      simp [validateListInstr, validateList, validate_single, hk, ih]

theorem validateListInstr_stops (pre : List DataloaderHandle)
    (h₀ : DataloaderHandle) (post : List DataloaderHandle)
    (hpre : ∀ d ∈ pre, d.has_known_length = true)
    (hbad : h₀.has_known_length = false) :
    validateListInstr (pre ++ h₀ :: post) = (pre ++ [h₀], .error ⟨errorMessage⟩) := by
  induction pre with
  | nil => simp [validateListInstr, validate_single, hbad]
  | cons h rest ih =>
    have hk := hpre h (List.mem_cons_self h rest)
    have hstep := ih fun d hd => hpre d (List.mem_cons_of_mem h hd)
    simp [validateListInstr, validate_single, hk, hstep]

theorem validateList_st_preserves (l : List HandleState) :
    (validateList_st l).2 = l := by
  induction l with
  | nil => rfl
  | cons h rest ih =>
    cases hk : h.has_known_length <;>
      simp [validateList_st, validate_single_st, queryKnownLength, hk, ih]

theorem validateList_st_fst (l : List HandleState) :
    (validateList_st l).1 = validateList (l.map HandleState.toHandle) := by
  induction l with
  | nil => rfl
  | cons h rest ih =>
    cases hk : h.has_known_length <;>
      simp [validateList_st, validateList, validate_single_st, validate_single,
        queryKnownLength, HandleState.toHandle, hk, ih]

/-! ## Claim theorems -/

/-- C1: for every role-slot configuration in which at least one present
handle lacks known length, `validate` raises a `ConfigurationError` (the
only error kind its result type admits) whose message contains the
substrings "iterable" and "support" case-insensitively. -/
theorem validate_raises_on_unknown_length (s : DataloaderSpec DataloaderHandle)
    (hbad : ∃ d ∈ s.allHandles, d.has_known_length = false) :
    ∃ e : ConfigurationError, validate s = .error e ∧
      "iterable".toList <:+: lowerList e.message.toList ∧
      "support".toList <:+: lowerList e.message.toList := by
  obtain ⟨d, hmem, hd⟩ := hbad
  exact ⟨⟨errorMessage⟩, validateList_error_of_mem hmem hd, by decide, by decide⟩

theorem validate_raises_on_unknown_length_witness :
    (∃ d ∈ (DataloaderSpec.mk (α := DataloaderHandle)
        (.single ⟨false, 0⟩) .absent .absent .absent).allHandles,
      d.has_known_length = false) ∧
    ∃ e : ConfigurationError,
      validate ⟨.single ⟨false, 0⟩, .absent, .absent, .absent⟩ = .error e ∧
      "iterable".toList <:+: lowerList e.message.toList ∧
      "support".toList <:+: lowerList e.message.toList :=
  ⟨by decide, validate_raises_on_unknown_length
    ⟨.single ⟨false, 0⟩, .absent, .absent, .absent⟩ (by decide)⟩

/-- C2: for every role-slot configuration in which every present handle has
known length (including configurations with absent slots), `validate`
returns normally. -/
theorem validate_ok_on_all_known (s : DataloaderSpec DataloaderHandle)
    (hall : ∀ d ∈ s.allHandles, d.has_known_length = true) :
    validate s = .ok () :=
  validateList_ok_of_all hall

theorem validate_ok_on_all_known_witness :
    (∀ d ∈ (DataloaderSpec.mk (α := DataloaderHandle)
        (.single ⟨true, 5⟩) (.seq [⟨true, 1⟩, ⟨true, 2⟩]) .absent .absent).allHandles,
      d.has_known_length = true) ∧
    validate ⟨.single ⟨true, 5⟩, .seq [⟨true, 1⟩, ⟨true, 2⟩], .absent, .absent⟩ = .ok () :=
  ⟨by decide, validate_ok_on_all_known
    ⟨.single ⟨true, 5⟩, .seq [⟨true, 1⟩, ⟨true, 2⟩], .absent, .absent⟩ (by decide)⟩

/-- C3: `validate_single` raises a `ConfigurationError` exactly when the
handle lacks known length, and returns normally exactly when it has known
length. -/
theorem validate_single_iff_no_length (h : DataloaderHandle) :
    ((∃ e, validate_single h = .error e) ↔ h.has_known_length = false) ∧
    (validate_single h = .ok () ↔ h.has_known_length = true) := by
  cases hk : h.has_known_length <;> simp [validate_single, hk]

/-- C4: a sequence in any role whose first handle has known length and
whose second handle lacks it still makes `validate` raise the
configuration error: every element of a sequence is examined, not only the
first. -/
theorem validate_checks_every_seq_element (s : DataloaderSpec DataloaderHandle)
    (r : Role) (h₁ h₂ : DataloaderHandle) (rest : List DataloaderHandle)
    (hr : s.getRole r = .seq (h₁ :: h₂ :: rest))
    (_hk : h₁.has_known_length = true)
    (hbad : h₂.has_known_length = false) :
    validate s = .error ⟨errorMessage⟩ := by
  have hmem : h₂ ∈ s.allHandles := by
    have hin : h₂ ∈ (s.getRole r).handles := by
      rw [hr]; simp [RoleSlot.handles]
    cases r <;>
      simp only [DataloaderSpec.getRole] at hin <;>
      simp [DataloaderSpec.allHandles, List.mem_append, hin]
  exact validateList_error_of_mem hmem hbad

theorem validate_checks_every_seq_element_witness :
    validate ⟨.absent, .seq [⟨true, 0⟩, ⟨false, 1⟩], .absent, .absent⟩
      = .error ⟨errorMessage⟩ :=
  validate_checks_every_seq_element
    ⟨.absent, .seq [⟨true, 0⟩, ⟨false, 1⟩], .absent, .absent⟩
    .validation ⟨true, 0⟩ ⟨false, 1⟩ [] rfl rfl rfl

/-- C5: `validate` examines handles in the deterministic order train,
validation, test, predict, left-to-right within a sequence, and stops at
the first handle lacking known length: the instrumented validator queries
exactly the handles up to and including the first offender (its trace ends
at that handle, so nothing after it is evaluated), raises the configuration
error there, and agrees with `validate` on the outcome. -/
theorem validate_stops_at_first_offender (s : DataloaderSpec DataloaderHandle)
    (pre : List DataloaderHandle) (h₀ : DataloaderHandle)
    (post : List DataloaderHandle)
    (hsplit : s.allHandles = pre ++ h₀ :: post)
    (hpre : ∀ d ∈ pre, d.has_known_length = true)
    (hbad : h₀.has_known_length = false) :
    validateInstr s = (pre ++ [h₀], .error ⟨errorMessage⟩) ∧
    (validateInstr s).2 = validate s := by
  constructor
  · show validateListInstr s.allHandles = _
    rw [hsplit]
    exact validateListInstr_stops pre h₀ post hpre hbad
  · exact validateListInstr_snd s.allHandles

theorem validate_stops_at_first_offender_witness :
    ((DataloaderSpec.mk (α := DataloaderHandle)
        (.seq [⟨true, 0⟩, ⟨false, 1⟩, ⟨false, 2⟩]) (.single ⟨false, 3⟩)
        .absent .absent).allHandles
      = [⟨true, 0⟩] ++ ⟨false, 1⟩ :: [⟨false, 2⟩, ⟨false, 3⟩]) ∧
    validateInstr ⟨.seq [⟨true, 0⟩, ⟨false, 1⟩, ⟨false, 2⟩], .single ⟨false, 3⟩,
        .absent, .absent⟩
      = ([⟨true, 0⟩] ++ [⟨false, 1⟩], .error ⟨errorMessage⟩) :=
  ⟨by decide,
    (validate_stops_at_first_offender
      ⟨.seq [⟨true, 0⟩, ⟨false, 1⟩, ⟨false, 2⟩], .single ⟨false, 3⟩,
        .absent, .absent⟩
      [⟨true, 0⟩] ⟨false, 1⟩ [⟨false, 2⟩, ⟨false, 3⟩]
      (by decide) (by decide) rfl).1⟩

/-- C6: the outcome of `validate` is a function of the role-slot shape and
the pointwise capability flags alone: two configurations with equal
`flags` views (same shape, same flags) validate identically, whatever the
handles' payloads are. -/
theorem validate_depends_only_on_flags (s₁ s₂ : DataloaderSpec DataloaderHandle)
    (hf : s₁.flags = s₂.flags) :
    validate s₁ = validate s₂ := by
  apply validateList_depends_only_on_flags
  calc s₁.allHandles.map DataloaderHandle.has_known_length
      = s₁.flags.allHandles := (allHandles_map _ s₁).symm
    _ = s₂.flags.allHandles := by rw [hf]
    _ = s₂.allHandles.map DataloaderHandle.has_known_length :=
        allHandles_map _ s₂

theorem validate_depends_only_on_flags_witness :
    ((DataloaderSpec.mk (α := DataloaderHandle)
        (.single ⟨true, 0⟩) (.seq [⟨false, 1⟩]) .absent .absent).flags
      = (DataloaderSpec.mk (α := DataloaderHandle)
        (.single ⟨true, 70⟩) (.seq [⟨false, 71⟩]) .absent .absent).flags) ∧
    validate ⟨.single ⟨true, 0⟩, .seq [⟨false, 1⟩], .absent, .absent⟩
      = validate ⟨.single ⟨true, 70⟩, .seq [⟨false, 71⟩], .absent, .absent⟩ :=
  ⟨by decide, validate_depends_only_on_flags
    ⟨.single ⟨true, 0⟩, .seq [⟨false, 1⟩], .absent, .absent⟩
    ⟨.single ⟨true, 70⟩, .seq [⟨false, 71⟩], .absent, .absent⟩ (by decide)⟩

/-- C7: the guard is pure and idempotent: one stateful run leaves every
handle state exactly as it was, a second run on the resulting states
produces the same outcome as the first, and the outcome coincides with the
pure `validate` on the handles' pure views. -/
theorem validate_idempotent (s : DataloaderSpec HandleState) :
    (validate_st s).2 = s.allHandles ∧
    (validateList_st (validate_st s).2).1 = (validate_st s).1 ∧
    (validate_st s).1 = validate (s.map HandleState.toHandle) := by
  refine ⟨validateList_st_preserves s.allHandles, ?_, ?_⟩
  · show (validateList_st (validateList_st s.allHandles).2).1
        = (validateList_st s.allHandles).1
    rw [validateList_st_preserves]
  · show (validateList_st s.allHandles).1 = _
    rw [validateList_st_fst, validate, allHandles_map]

/-- C8: `validate_single` leaves the handle's observable state unchanged:
the state after the stateful call equals the state before, so a subsequent
`has_known_length` query answers as before and the iteration position has
not advanced. -/
theorem validate_single_preserves_state (h : HandleState) :
    (validate_single_st h).2 = h ∧
    (queryKnownLength (validate_single_st h).2).1 = (queryKnownLength h).1 ∧
    (validate_single_st h).2.position = h.position :=
  ⟨rfl, rfl, rfl⟩

/-- C9: the bulk validation at strategy connect time decides on the
dataloaders held by the data connector alone: the outcome of `connect` is
the same for any two models (in particular for the model whose hooks all
raise NotImplementedError), and whenever an attached handle lacks known
length, `connect` raises the configuration error. -/
theorem connect_independent_of_model_hooks (m₁ m₂ : Model)
    (c : DataConnector)
    (hbad : ∃ d ∈ c.attached.allHandles, d.has_known_length = false) :
    connect m₁ c = connect m₂ c ∧
    connect m₁ c = .error ⟨errorMessage⟩ := by
  obtain ⟨d, hmem, hd⟩ := hbad
  exact ⟨rfl, validateList_error_of_mem hmem hd⟩

theorem connect_independent_of_model_hooks_witness :
    (∃ d ∈ (DataConnector.mk
        ⟨.absent, .seq [⟨true, 0⟩, ⟨false, 1⟩], .absent, .absent⟩).attached.allHandles,
      d.has_known_length = false) ∧
    connect boringModelNoDataloaders
        ⟨⟨.absent, .seq [⟨true, 0⟩, ⟨false, 1⟩], .absent, .absent⟩⟩
      = connect ⟨.dataloaders (.single ⟨true, 9⟩), .notImplementedError,
          .notImplementedError, .notImplementedError⟩
        ⟨⟨.absent, .seq [⟨true, 0⟩, ⟨false, 1⟩], .absent, .absent⟩⟩ ∧
    connect boringModelNoDataloaders
        ⟨⟨.absent, .seq [⟨true, 0⟩, ⟨false, 1⟩], .absent, .absent⟩⟩
      = .error ⟨errorMessage⟩ := by
  refine ⟨by decide, ?_⟩
  exact connect_independent_of_model_hooks boringModelNoDataloaders
    ⟨.dataloaders (.single ⟨true, 9⟩), .notImplementedError,
      .notImplementedError, .notImplementedError⟩
    ⟨⟨.absent, .seq [⟨true, 0⟩, ⟨false, 1⟩], .absent, .absent⟩⟩ (by decide)

end DataloaderGuard
